import Mathlib

/-!
Verification of core behaviours of the kafka-to-nexus file writer, shallowly
embedded from the C++ sources: the f142 writer module cue cadence, the
streamer message filtering and dispatch, the HDF file assembler safeguards,
and the master status messages.
-/

namespace KafkaToNexus

/-- The modulus for uint64 arithmetic. -/
def U64 : Nat := 2 ^ 64

/-- Reinterpretation of an unsigned 64-bit value as a signed 64-bit value,
as done by a static cast to int64 in the sources. -/
def toInt64 (n : Nat) : Int :=
  if n % U64 < 2 ^ 63 then Int.ofNat (n % U64) else Int.ofNat (n % U64) - Int.ofNat U64

/-! ## The f142 writer module (src/schemas/f142/f142_rw.cpp) -/

/-- Outcome tag of the f142 HDFWriterModule write call: an IO error when no
writer implementation exists, or success carrying the message timestamp. -/
inductive WriteResultTag where
  | ERROR_IO
  | OK_WITH_TIMESTAMP (ts : Nat)
deriving Repr, DecidableEq

/-- Result of one typed-writer call (impl write_impl) on a message: whether it
succeeded, how many bytes were appended to the value dataset, and the index
ix0 of the first appended row. -/
structure WriteImplResult where
  ok : Bool
  written_bytes : Nat
  ix0 : Nat
deriving Repr, DecidableEq

/-- One incoming f142 message as seen by the write call: the flatbuffer
timestamp and the behaviour of the typed value writer on this message. -/
structure F142Msg where
  timestamp : Nat
  impl : WriteImplResult
deriving Repr, DecidableEq

/-- State of the f142 HDFWriterModule that the write call touches: the byte
counters, the cue cadence configuration, the running timestamp maximum, and
the contents of the time and cue datasets.  The forwarder-internal datasets
are omitted (do_writer_forwarder_internal is false unless configured). -/
structure F142Writer where
  implPresent : Bool
  index_every_bytes : Nat
  total_written_bytes : Nat
  index_at_bytes : Nat
  ts_max : Nat
  ds_time : List Nat
  ds_cue_timestamp_zero : List Nat
  ds_cue_index : List Nat
deriving Repr, DecidableEq

/-- HDFWriterModule write from src/schemas/f142/f142_rw.cpp lines 339-379:
fail with ERROR_IO when the implementation is missing; otherwise add the
written bytes to total_written_bytes (uint64), update ts_max with the message
timestamp, emit one cue entry exactly when total_written_bytes strictly
exceeds index_at_bytes + index_every_bytes (uint64 sums), and append the
message timestamp to the time dataset. -/
def F142Writer.write (s : F142Writer) (m : F142Msg) : F142Writer × WriteResultTag :=
  if s.implPresent = false then
    (s, WriteResultTag.ERROR_IO)
  else
    let total := (s.total_written_bytes + m.impl.written_bytes) % U64
    let tsmax := max m.timestamp s.ts_max
    if (s.index_at_bytes + s.index_every_bytes) % U64 < total then
      ({ s with
          total_written_bytes := total
          ts_max := tsmax
          ds_cue_timestamp_zero := s.ds_cue_timestamp_zero ++ [tsmax]
          ds_cue_index := s.ds_cue_index ++ [m.impl.ix0]
          index_at_bytes := total
          ds_time := s.ds_time ++ [m.timestamp] },
        WriteResultTag.OK_WITH_TIMESTAMP m.timestamp)
    else
      ({ s with
          total_written_bytes := total
          ts_max := tsmax
          ds_time := s.ds_time ++ [m.timestamp] },
        WriteResultTag.OK_WITH_TIMESTAMP m.timestamp)

/-- A sequence of successive write calls on the module. -/
def F142Writer.writeSeq (s : F142Writer) : List F142Msg → F142Writer
  | [] => s
  | m :: ms => ((s.write m).1).writeSeq ms

/-- The index_every_bytes value produced by HDFWriterModule parse_config
(src/schemas/f142/f142_rw.cpp lines 224-239): the kb key scaled by 1024 when
it parses, then overridden by the mb key scaled by 1024 * 1024 when that
parses; the prior value is kept when a key is absent. -/
def parse_config_index_every_bytes (dflt : Nat) (kb mb : Option Nat) : Nat :=
  let v := match kb with
    | some k => k * 1024 % U64
    | none => dflt
  match mb with
  | some m => m * 1024 * 1024 % U64
  | none => v

/-- A concrete f142 module state directly after a successful init_hdf with
the given cue cadence: implementation present, all datasets freshly created
and empty, all byte counters and the timestamp maximum at zero. -/
def F142Writer.initState (every : Nat) : F142Writer :=
  { implPresent := true
    index_every_bytes := every
    total_written_bytes := 0
    index_at_bytes := 0
    ts_max := 0
    ds_time := []
    ds_cue_timestamp_zero := []
    ds_cue_index := [] }

lemma f142_write_cue_invariant (s : F142Writer) (m : F142Msg)
    (hchain : List.Chain' (fun a b => a ≤ b) s.ds_cue_timestamp_zero)
    (hmax : ∀ x ∈ s.ds_cue_timestamp_zero, x ≤ s.ts_max) :
    List.Chain' (fun a b => a ≤ b) ((s.write m).1).ds_cue_timestamp_zero ∧
      ∀ x ∈ ((s.write m).1).ds_cue_timestamp_zero, x ≤ ((s.write m).1).ts_max := by
  unfold F142Writer.write
  by_cases him : s.implPresent = false
  · rw [if_pos him]
    exact ⟨hchain, hmax⟩
  · rw [if_neg him]
    dsimp only
    split
    · dsimp only
      refine ⟨?_, ?_⟩
      · refine List.Chain'.append hchain (List.chain'_singleton _) ?_
        intro x hx y hy
        simp only [List.head?_cons, Option.mem_def, Option.some.injEq] at hy
        subst hy
        obtain ⟨hne, rfl⟩ := List.mem_getLast?_eq_getLast hx
        exact le_trans (hmax _ (List.getLast_mem hne)) (le_max_right _ _)
      · intro x hx
        rcases List.mem_append.mp hx with hx | hx
        · exact le_trans (hmax x hx) (le_max_right _ _)
        · rcases List.mem_singleton.mp hx with rfl
          exact le_refl _
    · dsimp only
      exact ⟨hchain, fun x hx => le_trans (hmax x hx) (le_max_right _ _)⟩

lemma f142_writeSeq_cue_invariant (s : F142Writer) (ms : List F142Msg)
    (hchain : List.Chain' (fun a b => a ≤ b) s.ds_cue_timestamp_zero)
    (hmax : ∀ x ∈ s.ds_cue_timestamp_zero, x ≤ s.ts_max) :
    List.Chain' (fun a b => a ≤ b) ((s.writeSeq ms).ds_cue_timestamp_zero) ∧
      ∀ x ∈ (s.writeSeq ms).ds_cue_timestamp_zero, x ≤ (s.writeSeq ms).ts_max := by
  induction ms generalizing s with
  | nil => exact ⟨hchain, hmax⟩
  | cons m ms ih =>
    have h := f142_write_cue_invariant s m hchain hmax
    exact ih ((s.write m).1) h.1 h.2

/-- C1 (amended): on every write call with the writer implementation present,
exactly one element is appended to each of the cue_timestamp_zero and
cue_index datasets precisely when the new total_written_bytes strictly
exceeds index_at_bytes + index_every_bytes (uint64 arithmetic); the cue
datasets are left unchanged when this strict inequality does not hold, in
particular also when the accumulated bytes since the last cue equal
index_every_bytes exactly. -/
theorem f142_cue_cadence_strict (s : F142Writer) (m : F142Msg)
    (h : s.implPresent = true) :
    ((s.index_at_bytes + s.index_every_bytes) % U64 <
        (s.total_written_bytes + m.impl.written_bytes) % U64 →
      (s.write m).1.ds_cue_timestamp_zero =
          s.ds_cue_timestamp_zero ++ [max m.timestamp s.ts_max] ∧
        (s.write m).1.ds_cue_index = s.ds_cue_index ++ [m.impl.ix0]) ∧
    (¬ (s.index_at_bytes + s.index_every_bytes) % U64 <
        (s.total_written_bytes + m.impl.written_bytes) % U64 →
      (s.write m).1.ds_cue_timestamp_zero = s.ds_cue_timestamp_zero ∧
        (s.write m).1.ds_cue_index = s.ds_cue_index) := by
  unfold F142Writer.write
  simp only [h, Bool.true_eq_false, if_false]
  constructor
  · intro hc
    simp [hc]
  · intro hc
    simp [hc]

/-- Witness for the amended cue cadence: with cadence 8 bytes, a write of 9
bytes emits exactly one cue entry carrying the running timestamp maximum and
the row index. -/
theorem f142_cue_cadence_strict_witness :
    ((F142Writer.initState 8).write ⟨5, ⟨true, 9, 2⟩⟩).1.ds_cue_timestamp_zero = [5] ∧
      ((F142Writer.initState 8).write ⟨5, ⟨true, 9, 2⟩⟩).1.ds_cue_index = [2] := by
  have h := f142_cue_cadence_strict (F142Writer.initState 8) ⟨5, ⟨true, 9, 2⟩⟩ rfl
  have hc := h.1 (by decide)
  simpa using hc

/-- C1 counterexample: with cue cadence 1024 bytes and a single successful
write of exactly 1024 bytes, the bytes accumulated since the last cue equal
index_every_bytes (the claimed greater-or-equal trigger condition holds), yet
no cue entry is emitted: the code only emits on a strict excess. -/
theorem f142_cue_cadence_counterexample :
    ((F142Writer.initState 1024).write ⟨7, ⟨true, 1024, 0⟩⟩).1.total_written_bytes -
        ((F142Writer.initState 1024).write ⟨7, ⟨true, 1024, 0⟩⟩).1.index_at_bytes ≥
      (F142Writer.initState 1024).index_every_bytes ∧
    ((F142Writer.initState 1024).write ⟨7, ⟨true, 1024, 0⟩⟩).1.ds_cue_timestamp_zero = [] ∧
    ((F142Writer.initState 1024).write ⟨7, ⟨true, 1024, 0⟩⟩).1.ds_cue_index = [] := by
  decide

/-- C6: starting from a module state whose cue_timestamp_zero dataset is
empty (as after init_hdf), the sequence of values this dataset holds after
any sequence of write calls is non-decreasing: each cue entry carries the
running maximum ts_max of the message timestamps seen so far. -/
theorem f142_cue_timestamps_monotone (s : F142Writer) (ms : List F142Msg)
    (h : s.ds_cue_timestamp_zero = []) :
    List.Chain' (fun a b => a ≤ b) ((s.writeSeq ms).ds_cue_timestamp_zero) := by
  refine (f142_writeSeq_cue_invariant s ms ?_ ?_).1 <;> simp [h]

/-- Witness for the cue monotonicity: three writes with timestamps 9, 4, 12
and cadence 1 byte produce the non-decreasing cue sequence [9, 9, 12]. -/
theorem f142_cue_timestamps_monotone_witness :
    List.Chain' (fun a b => a ≤ b)
      (((F142Writer.initState 1).writeSeq
        [⟨9, ⟨true, 2, 0⟩⟩, ⟨4, ⟨true, 2, 1⟩⟩, ⟨12, ⟨true, 2, 2⟩⟩]).ds_cue_timestamp_zero) :=
  f142_cue_timestamps_monotone (F142Writer.initState 1)
    [⟨9, ⟨true, 2, 0⟩⟩, ⟨4, ⟨true, 2, 1⟩⟩, ⟨12, ⟨true, 2, 2⟩⟩] rfl

/-! ## Sources and the streamer (src/Source.cpp, src/Streamer.cpp) -/

/-- Result of processing one message, as used by the streamer and the
sources. -/
inductive ProcessMessageResult where
  | OK
  | ERR
  | STOP
deriving Repr, DecidableEq

/-- The schema tag of a payload: bytes [4..8). -/
def schemaTag (payload : List Nat) : List Nat := (payload.drop 4).take 4

/-- A message that passed flatbuffer validation: the raw payload plus the
source name and timestamp (nanoseconds, uint64) extracted by the registered
flatbuffer reader. -/
structure FlatbufferMessage where
  payload : List Nat
  srcName : String
  timestamp : Nat
deriving Repr, DecidableEq

/-- A registered flatbuffer reader for one schema tag: extracts the source
name and the timestamp from a payload without full decoding. -/
structure FlatbufferReader where
  sourceName : List Nat → String
  timestamp : List Nat → Nat

/-- Classified failures of flatbuffer validation. -/
inductive FBError where
  | BadPayload
  | UnknownSchema
deriving Repr, DecidableEq

/-- Modelled from the spec: the FlatbufferMessage constructor (the class is
not under src/, only its callers are).  Section 3 of the spec: the envelope
is rejected with BadPayload if shorter than 8 bytes, rejected with
UnknownSchema if the 4-byte tag at payload bytes [4..8) has no registered
reader; otherwise the reader extracts the source name and the timestamp. -/
def createFlatbufferMessage (reg : List Nat → Option FlatbufferReader)
    (payload : List Nat) : Except FBError FlatbufferMessage :=
  if payload.length < 8 then Except.error FBError.BadPayload
  else
    match reg (schemaTag payload) with
    | none => Except.error FBError.UnknownSchema
    | some r => Except.ok ⟨payload, r.sourceName payload, r.timestamp payload⟩

/-- The result of a writer-module write call as inspected by the source:
only whether it compares equal to WriteResult OK. -/
structure HDFWriteResult where
  isOK : Bool
deriving Repr, DecidableEq

/-- A Source from src/Source.cpp: the source name, the 4-byte schema id,
whether a writer module is attached, the parallel flag, the behaviour of the
writer module write call (which may throw a WriterException, modelled as the
error case), and the two message counters. -/
structure Source where
  SourceName : String
  SchemaID : List Nat
  hasWriterModule : Bool
  is_parallel : Bool
  writerWrite : FlatbufferMessage → Except Unit HDFWriteResult
  cnt_msg_written : Nat
  processed_messages_count : Nat

/-- Outcome of Source process_message: the returned result, the updated
source state, and whether the writer module write call was invoked. -/
structure SourceProcessOutcome where
  result : ProcessMessageResult
  source : Source
  dispatched : Bool

/-- Source process_message from src/Source.cpp lines 21-48: reject a message
whose schema tag differs from the SchemaID of this source; in the
non-parallel path require a writer module, call its write, increment both
message counters right after the call returns (before the result code is
inspected), and return OK only when the write result equals OK; a thrown
WriterException yields ERR with the counters untouched. -/
def Source.process_message (s : Source) (m : FlatbufferMessage) : SourceProcessOutcome :=
  if schemaTag m.payload ≠ s.SchemaID then ⟨ProcessMessageResult.ERR, s, false⟩
  else if s.is_parallel = true then ⟨ProcessMessageResult.ERR, s, false⟩
  else if s.hasWriterModule = false then ⟨ProcessMessageResult.ERR, s, false⟩
  else
    match s.writerWrite m with
    | Except.error _ => ⟨ProcessMessageResult.ERR, s, true⟩
    | Except.ok r =>
      let s1 := { s with
        cnt_msg_written := s.cnt_msg_written + 1
        processed_messages_count := s.processed_messages_count + 1 }
      if r.isOK then ⟨ProcessMessageResult.OK, s1, true⟩
      else ⟨ProcessMessageResult.ERR, s1, true⟩

/-- Lookup in the demultiplexer source map (keyed by the source identity). -/
def findSource : List (String × Source) → String → Option Source
  | [], _ => none
  | (k, v) :: rest, key => if k = key then some v else findSource rest key

/-- Removal from the demultiplexer source map (DemuxTopic removeSource). -/
def removeSourceKey (l : List (String × Source)) (key : String) :
    List (String × Source) :=
  l.filter (fun kv => !(kv.1 == key))

/-- Store back an updated source under its key. -/
def setSource : List (String × Source) → String → Source → List (String × Source)
  | [], key, v => [(key, v)]
  | (k, w) :: rest, key, v =>
    if k = key then (k, v) :: rest else (k, w) :: setSource rest key v

/-- The topic demultiplexer: the topic name and the source map. -/
structure DemuxTopic where
  topic : String
  sources : List (String × Source)

/-- Streamer options: start and stop timestamps and the after-stop leeway,
all counts in milliseconds as in StreamerOptions. -/
structure StreamerOptions where
  StartTimestamp : Int
  StopTimestamp : Int
  AfterStopTime : Int
deriving Repr, DecidableEq

/-- stopTimeElapsed from src/Streamer.cpp lines 18-28: true when a stop time
is configured and the message timestamp, reinterpreted as int64, strictly
exceeds the stop time converted to nanoseconds. -/
def stopTimeElapsed (MessageTimestamp : Nat) (StoptimeMs : Int) : Bool :=
  decide (0 < StoptimeMs) && decide (StoptimeMs * 1000000 < toInt64 MessageTimestamp)

/-- Streamer stopTimeExceeded from src/Streamer.cpp lines 94-106: true when a
stop time is configured and the current wall-clock time strictly exceeds the
stop time plus the after-stop leeway (milliseconds). -/
def stopTimeExceeded (o : StreamerOptions) (SystemTimeMs : Int) : Bool :=
  decide (0 < o.StopTimestamp) && decide (o.StopTimestamp + o.AfterStopTime < SystemTimeMs)

/-- A poll outcome of the Kafka consumer. -/
inductive PollStatus where
  | message (payload : List Nat)
  | empty
  | endOfPartition
  | timedOut
  | error

/-- Whether a poll outcome is one of the three idle outcomes (Empty,
EndOfPartition, TimedOut) that trigger the wall-clock stop evaluation. -/
def PollStatus.isIdle : PollStatus → Bool
  | PollStatus.empty => true
  | PollStatus.endOfPartition => true
  | PollStatus.timedOut => true
  | _ => false

/-- Outcome of one pollAndProcess call: the returned result, the updated
demultiplexer, and the message/source pair handed to a writer module write
call when one was invoked. -/
structure PollOutcome where
  result : ProcessMessageResult
  demux : DemuxTopic
  dispatched : Option (FlatbufferMessage × Source)

/-- Streamer pollAndProcess from src/Streamer.cpp lines 108-197, the
consuming path after the consumer is assigned.  The routing step of
DemuxTopic process_message is modelled from the spec (section 4.4: route the
envelope to the Source registered under its source identity), since that
implementation is not under src/.  An Error poll returns ERR; the three idle
poll outcomes return STOP or OK depending only on the wall-clock stop
evaluation; a Message is validated as a flatbuffer, dropped with ERR on a
zero timestamp, dropped with OK when its source is unknown or its timestamp
lies before the start timestamp, prunes its source with STOP when the
message timestamp passes the stop time, and is otherwise processed by the
source. -/
def pollAndProcess (reg : List Nat → Option FlatbufferReader) (o : StreamerOptions)
    (SystemTimeMs : Int) (d : DemuxTopic) (p : PollStatus) : PollOutcome :=
  match p with
  | PollStatus.error => ⟨ProcessMessageResult.ERR, d, none⟩
  | PollStatus.empty =>
    if stopTimeExceeded o SystemTimeMs then ⟨ProcessMessageResult.STOP, d, none⟩
    else ⟨ProcessMessageResult.OK, d, none⟩
  | PollStatus.endOfPartition =>
    if stopTimeExceeded o SystemTimeMs then ⟨ProcessMessageResult.STOP, d, none⟩
    else ⟨ProcessMessageResult.OK, d, none⟩
  | PollStatus.timedOut =>
    if stopTimeExceeded o SystemTimeMs then ⟨ProcessMessageResult.STOP, d, none⟩
    else ⟨ProcessMessageResult.OK, d, none⟩
  | PollStatus.message payload =>
    match createFlatbufferMessage reg payload with
    | Except.error _ => ⟨ProcessMessageResult.ERR, d, none⟩
    | Except.ok m =>
      if m.timestamp = 0 then ⟨ProcessMessageResult.ERR, d, none⟩
      else
        match findSource d.sources m.srcName with
        | none => ⟨ProcessMessageResult.OK, d, none⟩
        | some src =>
          if toInt64 m.timestamp < o.StartTimestamp * 1000000 then
            ⟨ProcessMessageResult.OK, d, none⟩
          else if stopTimeElapsed m.timestamp o.StopTimestamp then
            ⟨ProcessMessageResult.STOP, ⟨d.topic, removeSourceKey d.sources m.srcName⟩, none⟩
          else
            let out := src.process_message m
            ⟨out.result, ⟨d.topic, setSource d.sources m.srcName out.source⟩,
              if out.dispatched then some (m, src) else none⟩

lemma findSource_removeSourceKey (l : List (String × Source)) (key : String) :
    findSource (removeSourceKey l key) key = none := by
  induction l with
  | nil => rfl
  | cons kv rest ih =>
    rcases kv with ⟨k, v⟩
    unfold removeSourceKey at *
    by_cases h : k = key
    · simpa [List.filter_cons, h] using ih
    · simpa [List.filter_cons, h, findSource] using ih

lemma process_message_dispatched_tag (s : Source) (m : FlatbufferMessage)
    (h : (s.process_message m).dispatched = true) :
    schemaTag m.payload = s.SchemaID := by
  unfold Source.process_message at h
  by_cases ht : schemaTag m.payload = s.SchemaID
  · exact ht
  · simp [ht] at h

lemma createFlatbufferMessage_ok (reg : List Nat → Option FlatbufferReader)
    (payload : List Nat) (m : FlatbufferMessage)
    (h : createFlatbufferMessage reg payload = Except.ok m) :
    m.payload = payload ∧ 8 ≤ payload.length ∧ (reg (schemaTag payload)).isSome = true := by
  unfold createFlatbufferMessage at h
  by_cases hl : payload.length < 8
  · simp [hl] at h
  · rw [if_neg hl] at h
    cases hr : reg (schemaTag payload) with
    | none => rw [hr] at h; simp at h
    | some r =>
      rw [hr] at h
      dsimp only at h
      cases h
      exact ⟨rfl, by omega, by simp [hr]⟩

lemma stopTimeExceeded_iff (o : StreamerOptions) (t : Int) :
    stopTimeExceeded o t = true ↔
      (0 < o.StopTimestamp ∧ o.StopTimestamp + o.AfterStopTime < t) := by
  simp [stopTimeExceeded]

lemma idlePollResult (o : StreamerOptions) (t : Int) (d : DemuxTopic) :
    ((if stopTimeExceeded o t then (⟨ProcessMessageResult.STOP, d, none⟩ : PollOutcome)
        else ⟨ProcessMessageResult.OK, d, none⟩).result = ProcessMessageResult.STOP ↔
      (0 < o.StopTimestamp ∧ o.StopTimestamp + o.AfterStopTime < t)) ∧
    (¬ (0 < o.StopTimestamp ∧ o.StopTimestamp + o.AfterStopTime < t) →
      (if stopTimeExceeded o t then (⟨ProcessMessageResult.STOP, d, none⟩ : PollOutcome)
        else ⟨ProcessMessageResult.OK, d, none⟩).result = ProcessMessageResult.OK) := by
  by_cases hs : stopTimeExceeded o t = true
  · rw [if_pos hs]
    have hc := (stopTimeExceeded_iff o t).mp hs
    exact ⟨iff_of_true rfl hc, fun hn => absurd hc hn⟩
  · rw [if_neg hs]
    exact ⟨iff_of_false (fun hfalse => ProcessMessageResult.noConfusion hfalse)
      (fun hc => hs ((stopTimeExceeded_iff o t).mpr hc)), fun _ => rfl⟩

/-- C4: on an Empty, EndOfPartition or TimedOut poll outcome, pollAndProcess
returns STOP exactly when a stop time is configured and the wall clock
strictly exceeds the stop time plus the after-stop leeway, and returns OK
otherwise; and the handling of a Message poll outcome does not depend on the
wall-clock time at all (no wall-clock stop evaluation happens there). -/
theorem streamer_idle_poll_stop (reg : List Nat → Option FlatbufferReader)
    (o : StreamerOptions) (t : Int) (d : DemuxTopic) (p : PollStatus)
    (h : p.isIdle = true) :
    (((pollAndProcess reg o t d p).result = ProcessMessageResult.STOP) ↔
      (0 < o.StopTimestamp ∧ o.StopTimestamp + o.AfterStopTime < t)) ∧
    (¬ (0 < o.StopTimestamp ∧ o.StopTimestamp + o.AfterStopTime < t) →
      (pollAndProcess reg o t d p).result = ProcessMessageResult.OK) ∧
    (∀ (t1 t2 : Int) (payload : List Nat),
      pollAndProcess reg o t1 d (PollStatus.message payload) =
        pollAndProcess reg o t2 d (PollStatus.message payload)) := by
  refine ⟨?_, ?_, fun t1 t2 payload => rfl⟩ <;> cases p <;>
    first
    | exact (idlePollResult o t d).1
    | exact (idlePollResult o t d).2
    | exact Bool.noConfusion h

/-- Witness for the idle-poll stop evaluation: with stop time 5 ms, leeway
2 ms and wall clock 10 ms, an Empty poll returns STOP. -/
theorem streamer_idle_poll_stop_witness :
    (pollAndProcess (fun _ => none) ⟨0, 5, 2⟩ 10 ⟨"T", []⟩ PollStatus.empty).result =
      ProcessMessageResult.STOP :=
  ((streamer_idle_poll_stop (fun _ => none) ⟨0, 5, 2⟩ 10 ⟨"T", []⟩ PollStatus.empty
      rfl).1).mpr (by constructor <;> decide)

/-- C2: a polled message whose source is registered in the demultiplexer and
which is not filtered by the start-time check is, when a stop time is
configured and the message timestamp in nanoseconds exceeds it, answered by
removing its source from the source map and returning STOP, without passing
the message to any writer module.  The start timestamp is a nonnegative
milliseconds-since-epoch count and the timestamp is a uint64 value. -/
theorem streamer_stop_time_prunes_source (reg : List Nat → Option FlatbufferReader)
    (o : StreamerOptions) (t : Int) (d : DemuxTopic) (payload : List Nat)
    (m : FlatbufferMessage) (src : Source)
    (hok : createFlatbufferMessage reg payload = Except.ok m)
    (hts64 : m.timestamp < U64)
    (hsrc : findSource d.sources m.srcName = some src)
    (hstartnn : 0 ≤ o.StartTimestamp)
    (hnotbefore : ¬ toInt64 m.timestamp < o.StartTimestamp * 1000000)
    (hstoppos : 0 < o.StopTimestamp)
    (hexceeds : o.StopTimestamp * 1000000 < (m.timestamp : Int)) :
    (pollAndProcess reg o t d (PollStatus.message payload)).result =
        ProcessMessageResult.STOP ∧
      findSource (pollAndProcess reg o t d (PollStatus.message payload)).demux.sources
          m.srcName = none ∧
      (pollAndProcess reg o t d (PollStatus.message payload)).dispatched = none := by
  have hU : U64 = 18446744073709551616 := by norm_num [U64]
  have hmod : m.timestamp % U64 = m.timestamp := Nat.mod_eq_of_lt hts64
  have hge : o.StartTimestamp * 1000000 ≤ toInt64 m.timestamp := le_of_not_lt hnotbefore
  have hstart0 : (0 : Int) ≤ o.StartTimestamp * 1000000 :=
    mul_nonneg hstartnn (by norm_num)
  have hnn : (0 : Int) ≤ toInt64 m.timestamp := le_trans hstart0 hge
  have htoint : toInt64 m.timestamp = (m.timestamp : Int) := by
    by_cases hlt : m.timestamp < 2 ^ 63
    · unfold toInt64
      rw [hmod, if_pos hlt]
      rfl
    · exfalso
      have h1 : toInt64 m.timestamp = Int.ofNat m.timestamp - Int.ofNat U64 := by
        unfold toInt64
        rw [hmod, if_neg hlt]
      rw [h1] at hnn
      have hcast : (m.timestamp : Int) < (U64 : Int) := by exact_mod_cast hts64
      simp only [Int.ofNat_eq_coe] at hnn
      omega
  have hstopel : stopTimeElapsed m.timestamp o.StopTimestamp = true := by
    unfold stopTimeElapsed
    rw [htoint]
    simp only [Bool.and_eq_true, decide_eq_true_eq]
    exact ⟨hstoppos, hexceeds⟩
  have hne : ¬ m.timestamp = 0 := by
    have h1 : (0 : Int) < o.StopTimestamp * 1000000 := by positivity
    have h2 : (0 : Int) < (m.timestamp : Int) := lt_trans h1 hexceeds
    intro hz
    rw [hz] at h2
    simp at h2
  unfold pollAndProcess
  dsimp only
  rw [hok]
  dsimp only
  rw [if_neg hne, hsrc]
  dsimp only
  rw [if_neg hnotbefore, if_pos hstopel]
  exact ⟨rfl, findSource_removeSourceKey d.sources m.srcName, rfl⟩

/-- A concrete flatbuffer reader used for witnesses: constant source name S
and timestamp taken from byte 0 of the payload. -/
def testReader : FlatbufferReader :=
  { sourceName := fun _ => "S", timestamp := fun p => p.headD 0 }

/-- A concrete reader registry recognizing the schema tag 1 2 3 4. -/
def testRegistry : List Nat → Option FlatbufferReader :=
  fun tag => if tag = [1, 2, 3, 4] then some testReader else none

/-- A concrete source for schema tag 1 2 3 4 whose writer module write call
succeeds with an OK result. -/
def testSource : Source :=
  { SourceName := "S"
    SchemaID := [1, 2, 3, 4]
    hasWriterModule := true
    is_parallel := false
    writerWrite := fun _ => Except.ok ⟨true⟩
    cnt_msg_written := 0
    processed_messages_count := 0 }

/-- A concrete source whose writer module write call returns a non-OK write
result (a reported write error, not a thrown exception). -/
def testSourceErr : Source :=
  { testSource with writerWrite := fun _ => Except.ok ⟨false⟩ }

/-- A concrete demultiplexer holding the test source under key S. -/
def testDemux : DemuxTopic := ⟨"T", [("S", testSource)]⟩

/-- A concrete payload: 8 bytes, schema tag 1 2 3 4 at bytes 4 to 7,
timestamp byte 5 at position 0. -/
def testPayload : List Nat := [5, 0, 0, 0, 1, 2, 3, 4]

/-- The flatbuffer message that validation produces from the test payload. -/
def testMessage : FlatbufferMessage := ⟨testPayload, "S", 5⟩

/-- Witness for the stop-time pruning: with stop time 1 ms and a message at
5000000 ns, the source is removed and STOP is returned. -/
theorem streamer_stop_time_prunes_source_witness :
    (pollAndProcess testRegistry ⟨0, 1, 0⟩ 0
        ⟨"T", [("S", testSource)]⟩ (PollStatus.message [5000000, 0, 0, 0, 1, 2, 3, 4])).result =
        ProcessMessageResult.STOP ∧
      findSource (pollAndProcess testRegistry ⟨0, 1, 0⟩ 0
          ⟨"T", [("S", testSource)]⟩
          (PollStatus.message [5000000, 0, 0, 0, 1, 2, 3, 4])).demux.sources "S" = none ∧
      (pollAndProcess testRegistry ⟨0, 1, 0⟩ 0
          ⟨"T", [("S", testSource)]⟩
          (PollStatus.message [5000000, 0, 0, 0, 1, 2, 3, 4])).dispatched = none :=
  streamer_stop_time_prunes_source testRegistry ⟨0, 1, 0⟩ 0
    ⟨"T", [("S", testSource)]⟩ [5000000, 0, 0, 0, 1, 2, 3, 4]
    ⟨[5000000, 0, 0, 0, 1, 2, 3, 4], "S", 5000000⟩ testSource
    rfl (by norm_num [U64]) rfl (by norm_num)
    (by norm_num [toInt64, U64]) (by norm_num) (by norm_num)

/-- C3: whenever pollAndProcess hands a message to a writer module write
call, the message passed flatbuffer validation (payload at least 8 bytes and
a schema tag with a registered reader), has a strictly positive timestamp,
and its schema tag equals the SchemaID of the source it was routed to;
conversely any message failing one of these checks is dropped without any
write call. -/
theorem streamer_dispatch_only_validated (reg : List Nat → Option FlatbufferReader)
    (o : StreamerOptions) (t : Int) (d : DemuxTopic) (p : PollStatus)
    (m : FlatbufferMessage) (src : Source)
    (h : (pollAndProcess reg o t d p).dispatched = some (m, src)) :
    8 ≤ m.payload.length ∧ (reg (schemaTag m.payload)).isSome = true ∧
      0 < m.timestamp ∧ schemaTag m.payload = src.SchemaID := by
  cases p with
  | error => exact absurd h (by simp [pollAndProcess])
  | empty =>
    unfold pollAndProcess at h
    dsimp only at h
    split at h <;> simp at h
  | endOfPartition =>
    unfold pollAndProcess at h
    dsimp only at h
    split at h <;> simp at h
  | timedOut =>
    unfold pollAndProcess at h
    dsimp only at h
    split at h <;> simp at h
  | message payload =>
    unfold pollAndProcess at h
    dsimp only at h
    cases hfb : createFlatbufferMessage reg payload with
    | error e => rw [hfb] at h; simp at h
    | ok m2 =>
      rw [hfb] at h
      dsimp only at h
      by_cases h0 : m2.timestamp = 0
      · rw [if_pos h0] at h; simp at h
      · rw [if_neg h0] at h
        cases hfs : findSource d.sources m2.srcName with
        | none => rw [hfs] at h; simp at h
        | some src2 =>
          rw [hfs] at h
          dsimp only at h
          by_cases hbs : toInt64 m2.timestamp < o.StartTimestamp * 1000000
          · rw [if_pos hbs] at h; simp at h
          · rw [if_neg hbs] at h
            by_cases hse : stopTimeElapsed m2.timestamp o.StopTimestamp = true
            · rw [if_pos hse] at h; simp at h
            · rw [if_neg hse] at h
              dsimp only at h
              by_cases hdi : (src2.process_message m2).dispatched = true
              · rw [if_pos hdi] at h
                have hinj : m2 = m ∧ src2 = src := by
                  have := Option.some.inj h
                  exact ⟨congrArg Prod.fst this, congrArg Prod.snd this⟩
                obtain ⟨rfl, rfl⟩ := hinj
                obtain ⟨hp, hlen, hreg⟩ := createFlatbufferMessage_ok reg payload m2 hfb
                refine ⟨?_, ?_, Nat.pos_of_ne_zero h0, process_message_dispatched_tag src2 m2 hdi⟩
                · rw [hp]; exact hlen
                · rw [hp]; exact hreg
              · rw [if_neg hdi] at h
                simp at h

/-- Witness for the dispatch validation: the test message is dispatched to
the test source and satisfies all four admission conditions. -/
theorem streamer_dispatch_only_validated_witness :
    (pollAndProcess testRegistry ⟨0, 0, 0⟩ 0 testDemux
        (PollStatus.message testPayload)).dispatched = some (testMessage, testSource) ∧
      (8 ≤ testMessage.payload.length ∧
        (testRegistry (schemaTag testMessage.payload)).isSome = true ∧
        0 < testMessage.timestamp ∧
        schemaTag testMessage.payload = testSource.SchemaID) :=
  ⟨rfl, streamer_dispatch_only_validated testRegistry ⟨0, 0, 0⟩ 0 testDemux
    (PollStatus.message testPayload) testMessage testSource rfl⟩

/-- C10: when Source process_message reaches the writer module and the write
call returns a result (rather than throwing), both the messages-written and
the processed-messages counters are incremented, independently of the result
code; in particular they are incremented even when the write result is not
OK and the call returns ERR. -/
theorem source_counters_before_result (s : Source) (m : FlatbufferMessage)
    (r : HDFWriteResult)
    (htag : schemaTag m.payload = s.SchemaID)
    (hpar : s.is_parallel = false)
    (hwm : s.hasWriterModule = true)
    (hw : s.writerWrite m = Except.ok r) :
    (s.process_message m).source.cnt_msg_written = s.cnt_msg_written + 1 ∧
      (s.process_message m).source.processed_messages_count =
        s.processed_messages_count + 1 ∧
      (r.isOK = false → (s.process_message m).result = ProcessMessageResult.ERR) := by
  unfold Source.process_message
  rw [if_neg (by simp [htag]), if_neg (by simp [hpar]), if_neg (by simp [hwm]), hw]
  dsimp only
  by_cases hr : r.isOK = true
  · rw [if_pos hr]
    exact ⟨rfl, rfl, fun hfalse => absurd hr (by simp [hfalse])⟩
  · rw [if_neg hr]
    exact ⟨rfl, rfl, fun _ => rfl⟩

/-- Witness for the counter increments: a reported write error still bumps
the messages-written counter from 0 to 1 and returns ERR. -/
theorem source_counters_before_result_witness :
    (testSourceErr.process_message testMessage).source.cnt_msg_written =
        testSourceErr.cnt_msg_written + 1 ∧
      (testSourceErr.process_message testMessage).result = ProcessMessageResult.ERR :=
  ⟨(source_counters_before_result testSourceErr testMessage ⟨false⟩ rfl rfl rfl rfl).1,
    (source_counters_before_result testSourceErr testMessage ⟨false⟩ rfl rfl rfl rfl).2.2 rfl⟩

/-! ## The HDF file assembler (src/HDFFile.cpp) -/

/-- A JSON value as used by the template walker.  The numeric payload of a
floating-point literal is irrelevant to the embedded logic (only the
is_number_float tag is inspected), so it is not carried. -/
inductive Json where
  | null
  | bool (b : Bool)
  | int (i : Int)
  | float
  | str (s : String)
  | arr (xs : List Json)
  | obj (fields : List (String × Json))

/-- Lookup of a key in a JSON object field list. -/
def findField : List (String × Json) → String → Option Json
  | [], _ => none
  | (k, v) :: rest, key => if k = key then some v else findField rest key

/-- Lookup of a key in a JSON value (none when not an object or absent),
as the find helper of the sources. -/
def Json.find : Json → String → Option Json
  | Json.obj fields, key => findField fields key
  | _, _ => none

/-- Lookup of a string-valued key (find with a string type argument). -/
def Json.findString (j : Json) (key : String) : Option String :=
  match j.find key with
  | some (Json.str s) => some s
  | _ => none

/-- Whether a JSON value is a floating-point number literal
(is_number_float). -/
def Json.isNumberFloat : Json → Bool
  | Json.float => true
  | _ => false

/-- findType from src/HDFFile.cpp lines 313-326: the type key when it holds
a string, otherwise the dtype key when it holds a string, otherwise none. -/
def findType (j : Json) : Option String :=
  match j.findString "type" with
  | some t => some t
  | none => j.findString "dtype"

/-- The dataset element type declared on a template node: findType applied
to the inner dataset object. -/
def datasetDeclaredType (v : Json) : Option String :=
  match v.find "dataset" with
  | some ds => findType ds
  | none => none

/-- The dataset write performed for a template node, projected to the dataset
name and the element data type handed to writeGenericDataset. -/
structure DatasetAction where
  name : String
  dataType : String
deriving Repr, DecidableEq

/-- writeDataset from src/HDFFile.cpp lines 685-758, projected to the choice
of dataset name and element data type: the node is skipped (none) when it
has no name, when a declared data space differs from simple, or when it has
no values; the data type starts at int64, is replaced by the declared type
of the inner dataset object when findType succeeds there, and is finally
forced to double whenever the values entry is a floating-point literal. -/
def writeDataset (v : Json) : Option DatasetAction :=
  match v.findString "name" with
  | none => none
  | some name =>
    let spaceOk : Bool :=
      match v.find "dataset" with
      | some ds =>
        match ds.findString "space" with
        | some sp => sp = "simple"
        | none => true
      | none => true
    if spaceOk = false then none
    else
      let dt := (datasetDeclaredType v).getD "int64"
      match v.find "values" with
      | none => none
      | some values =>
        some ⟨name, if values.isNumberFloat then "double" else dt⟩

/-- The cap on array nesting depth from src/HDFFile.cpp line 28. -/
def MAX_DIMENSIONS_OF_ARRAY : Nat := 10

/-- The cap on fixed-string element size from src/HDFFile.cpp line 32
(4 MiB). -/
def MAX_ALLOWED_STRING_LENGTH : Nat := 4 * 1024 * 1024

/-- The error text raised for an oversized fixed-string element. -/
def fixedStringSizeError : String :=
  "Failed to allocate fixed-size string dataset, bad element size"

/-- FixedStringItemHandler append from src/HDFFile.cpp lines 101-115: raise
an error when the declared element size reaches the cap; otherwise resize
the string value to exactly ItemLength characters (truncating or padding
with NUL) and append the characters to the buffer.  A non-string value makes
the conversion to a string throw. -/
def fixedStringAppend (Buffer : List Char) (Value : Json) (ItemLength : Nat) :
    Except String (List Char) :=
  if MAX_ALLOWED_STRING_LENGTH ≤ ItemLength then
    Except.error fixedStringSizeError
  else
    match Value with
    | Json.str s =>
      Except.ok (Buffer ++
        (s.toList.take ItemLength ++ List.replicate (ItemLength - s.toList.length) (Char.ofNat 0)))
    | _ => Except.error "type must be string"

mutual

/-- Size measure of a JSON value, for loop termination. -/
def jsize : Json → Nat
  | Json.arr xs => 1 + jsizeList xs
  | _ => 1

/-- Size measure of a list of JSON values. -/
def jsizeList : List Json → Nat
  | [] => 0
  | x :: xs => jsize x + jsizeList xs

end

lemma jsize_pos (v : Json) : 1 ≤ jsize v := by
  cases v <;> simp [jsize]

/-- Total size of the remaining work on the stack of the populateBlob
loop. -/
def frameWeight : List (List Json) → Nat
  | [] => 0
  | f :: rest => jsizeList f + frameWeight rest

/-- The while loop of populateBlob from src/HDFFile.cpp lines 123-142: every
stack frame holds the not-yet-visited elements of one array.  Each iteration
first breaks out of the whole loop (returning the buffer built so far) once
the stack is deeper than MAX_DIMENSIONS_OF_ARRAY; otherwise it pops an
exhausted frame, pushes a frame for a nested array, or feeds a leaf value to
the item handler (whose thrown errors propagate). -/
def populateBlobLoop {α : Type} (h : List α → Json → Nat → Except String (List α))
    (ItemLength : Nat) : List (List Json) → List α → Except String (List α)
  | [], Buffer => Except.ok Buffer
  | f :: rest, Buffer =>
    if MAX_DIMENSIONS_OF_ARRAY < (f :: rest).length then Except.ok Buffer
    else
      match f with
      | [] => populateBlobLoop h ItemLength rest Buffer
      | Json.arr xs :: vs => populateBlobLoop h ItemLength (xs :: vs :: rest) Buffer
      | v :: vs =>
        match h Buffer v ItemLength with
        | Except.error e => Except.error e
        | Except.ok B2 => populateBlobLoop h ItemLength (vs :: rest) B2
termination_by stack _ => 2 * frameWeight stack + stack.length
decreasing_by
  all_goals
    simp only [frameWeight, jsizeList, jsize, List.length_cons]
  all_goals
    first
    | omega
    | (have hjp := jsize_pos v
       omega)

/-- populateBlob from src/HDFFile.cpp lines 117-153: run the stack loop on an
array value (or the handler once on a non-array value) and check the goal
size when one is given. -/
def populateBlob {α : Type} (h : List α → Json → Nat → Except String (List α))
    (ValueJson : Json) (GoalSize : Nat) (ItemLength : Nat) :
    Except String (List α) :=
  let run : Except String (List α) :=
    match ValueJson with
    | Json.arr xs => populateBlobLoop h ItemLength [xs] []
    | _ => h [] ValueJson ItemLength
  match run with
  | Except.error e => Except.error e
  | Except.ok Buffer =>
    if GoalSize ≠ 0 ∧ Buffer.length ≠ GoalSize then
      Except.error "Failed to populate numeric blob, size mismatch"
    else Except.ok Buffer

/-- The HDF5 file access mode chosen by HDFFile init. -/
inductive AccessMode where
  | exclusive
  | truncateSWMR
deriving Repr, DecidableEq

/-- The error text raised when the target file already exists. -/
def hdfFileExistsError : String := "The file exists already."

/-- HDFFile init (by file name) from src/HDFFile.cpp lines 857-888,
projected to the existence pre-check and the chosen access flags: throw when
a file already exists at the target path (checked before any creation
attempt); otherwise create with TRUNCATE plus SWMR_WRITE in SWMR mode and
with EXCLUSIVE otherwise. -/
def HDFFile_init_file (fileExists : Bool) (UseHDFSWMR : Bool) :
    Except String AccessMode :=
  if fileExists then Except.error hdfFileExistsError
  else if UseHDFSWMR then Except.ok AccessMode.truncateSWMR
  else Except.ok AccessMode.exclusive

/-- A concrete template node with a declared float element type and a
floating-point scalar values literal. -/
def floatScalarNode : Json :=
  Json.obj [("name", Json.str "x"),
    ("dataset", Json.obj [("type", Json.str "float")]),
    ("values", Json.float)]

/-- C5 counterexample: a dataset node declaring type float with a
floating-point scalar values literal is written with element type double,
not with its declared type: the float-promotion in writeDataset overrides
any declared type instead of applying only when no type was declared. -/
theorem dataset_type_declared_counterexample :
    datasetDeclaredType floatScalarNode = some "float" ∧
      writeDataset floatScalarNode = some ⟨"x", "double"⟩ := ⟨rfl, rfl⟩

/-- C5 (amended): for every dataset node that is written, the element type
is double whenever the values literal is a floating-point scalar (regardless
of any declared type); otherwise it is the declared dataset type when one is
given, and int64 by default. -/
theorem dataset_type_selection (v : Json) (a : DatasetAction) (values : Json)
    (h : writeDataset v = some a) (hv : v.find "values" = some values) :
    a.dataType =
      if values.isNumberFloat then "double"
      else (datasetDeclaredType v).getD "int64" := by
  unfold writeDataset at h
  cases hn : v.findString "name" with
  | none => rw [hn] at h; cases h
  | some name =>
    rw [hn] at h
    dsimp only at h
    split at h
    · cases h
    · rw [hv] at h
      dsimp only at h
      cases h
      rfl

/-- Witness for the amended type selection at the float-scalar node. -/
theorem dataset_type_selection_witness :
    writeDataset floatScalarNode = some ⟨"x", "double"⟩ ∧
      (⟨"x", "double"⟩ : DatasetAction).dataType =
        (if Json.float.isNumberFloat then "double"
          else (datasetDeclaredType floatScalarNode).getD "int64") :=
  ⟨rfl, dataset_type_selection floatScalarNode ⟨"x", "double"⟩ Json.float rfl rfl⟩

/-- C7: the template-walk safeguards.  First, the populateBlob loop stops
iterating as soon as the stack is deeper than MAX_DIMENSIONS_OF_ARRAY = 10,
for any item handler: no element is visited at a nesting depth beyond the
cap.  Second, appending a fixed-size string element whose declared size
reaches MAX_ALLOWED_STRING_LENGTH (4 MiB) raises an error instead of
building the string. -/
theorem hdffile_template_safeguards :
    (∀ (h : List Char → Json → Nat → Except String (List Char)) (ItemLength : Nat)
        (stack : List (List Json)) (Buffer : List Char),
      MAX_DIMENSIONS_OF_ARRAY < stack.length →
      populateBlobLoop h ItemLength stack Buffer = Except.ok Buffer) ∧
    (∀ (Buffer : List Char) (Value : Json) (ItemLength : Nat),
      MAX_ALLOWED_STRING_LENGTH ≤ ItemLength →
      fixedStringAppend Buffer Value ItemLength = Except.error fixedStringSizeError) := by
  constructor
  · intro h ItemLength stack Buffer hlen
    cases stack with
    | nil => simp at hlen
    | cons f rest =>
      rw [populateBlobLoop.eq_def]
      dsimp only
      rw [if_pos hlen]
  · intro Buffer Value ItemLength hlen
    unfold fixedStringAppend
    rw [if_pos hlen]

/-- Witness for the safeguards: a stack of 11 frames is abandoned as is, and
a 4 MiB fixed-string element size errors out. -/
theorem hdffile_template_safeguards_witness :
    populateBlobLoop fixedStringAppend 3
        [[], [], [], [], [], [], [], [], [], [], []] [] = Except.ok [] ∧
      fixedStringAppend [] (Json.str "a") 4194304 =
        Except.error fixedStringSizeError :=
  ⟨hdffile_template_safeguards.1 fixedStringAppend 3
      [[], [], [], [], [], [], [], [], [], [], []] [] (by decide),
    hdffile_template_safeguards.2 [] (Json.str "a") 4194304 (by decide)⟩

/-- C9: HDFFile init by file name refuses to open when a file already exists
at the target path, in SWMR mode (where creation would use TRUNCATE) just as
in the default mode (EXCLUSIVE); the existence pre-check runs before any
creation attempt, so an existing file is never overwritten. -/
theorem hdffile_init_no_overwrite :
    (∀ UseHDFSWMR : Bool,
      HDFFile_init_file true UseHDFSWMR = Except.error hdfFileExistsError) ∧
      HDFFile_init_file false true = Except.ok AccessMode.truncateSWMR ∧
      HDFFile_init_file false false = Except.ok AccessMode.exclusive :=
  ⟨fun u => by cases u <;> rfl, rfl, rfl⟩

/-! ## The master status messages (src/Master.cpp) -/

/-- Insert or assign a key in a JSON object field list, as assignment into a
JSON object does. -/
def objSet : List (String × Json) → String → Json → List (String × Json)
  | [], key, v => [(key, v)]
  | (k, w) :: rest, key, v =>
    if k = key then (k, v) :: rest else (k, w) :: objSet rest key v

/-- One active file-writer job as seen by the status loop: the job id of its
file-writer task and the stats JSON of that task. -/
structure StreamMasterItem where
  job_id : String
  stats : Json

/-- Master statistics from src/Master.cpp lines 101-118, projected to the
JSON status message it builds and publishes: a type field holding
filewriter_status_master, the configured service id, and a files object
receiving one assignment per active job, keyed by the job id and holding the
task stats. -/
def Master_statistics (service_id : String) (jobs : List StreamMasterItem) : Json :=
  let files := jobs.foldl (fun acc j => objSet acc j.job_id j.stats) []
  Json.obj (objSet (objSet (objSet []
    "type" (Json.str "filewriter_status_master"))
    "service_id" (Json.str service_id))
    "files" (Json.obj files))

lemma objSet_of_not_mem (l : List (String × Json)) (key : String) (v : Json)
    (h : findField l key = none) : objSet l key v = l ++ [(key, v)] := by
  induction l with
  | nil => rfl
  | cons kv rest ih =>
    rcases kv with ⟨k, w⟩
    unfold findField at h
    by_cases hk : k = key
    · rw [if_pos hk] at h; cases h
    · rw [if_neg hk] at h
      simp [objSet, hk, ih h]

lemma findField_append_none (l1 l2 : List (String × Json)) (key : String)
    (h : findField l1 key = none) :
    findField (l1 ++ l2) key = findField l2 key := by
  induction l1 with
  | nil => rfl
  | cons kv rest ih =>
    rcases kv with ⟨k, w⟩
    unfold findField at h
    by_cases hk : k = key
    · rw [if_pos hk] at h; cases h
    · rw [if_neg hk] at h
      simpa [findField, hk] using ih h

lemma files_foldl_map (jobs : List StreamMasterItem) (acc : List (String × Json))
    (hdisj : ∀ j ∈ jobs, findField acc j.job_id = none)
    (hnodup : List.Pairwise (fun a b => a.job_id ≠ b.job_id) jobs) :
    jobs.foldl (fun acc j => objSet acc j.job_id j.stats) acc =
      acc ++ jobs.map (fun j => (j.job_id, j.stats)) := by
  induction jobs generalizing acc with
  | nil => simp
  | cons j rest ih =>
    rcases List.pairwise_cons.mp hnodup with ⟨hhead, htail⟩
    simp only [List.foldl_cons, List.map_cons]
    rw [objSet_of_not_mem acc j.job_id j.stats (hdisj j (by simp))]
    rw [ih (acc ++ [(j.job_id, j.stats)]) ?_ htail]
    · simp
    · intro j2 hj2
      rw [findField_append_none acc _ _ (hdisj j2 (by simp [hj2]))]
      have hne : ¬ j.job_id = j2.job_id := fun he => hhead j2 hj2 he
      simp [findField, hne]

/-- C8: every status message built by the master loop is a JSON object whose
type field is filewriter_status_master, whose service_id field carries the
configured service id, and whose files field is an object with exactly one
entry per active job, keyed by that job id and holding that job task stats
(job ids of distinct active jobs are distinct). -/
theorem master_status_message (service_id : String) (jobs : List StreamMasterItem)
    (hnodup : List.Pairwise (fun a b => a.job_id ≠ b.job_id) jobs) :
    (Master_statistics service_id jobs).find "type" =
        some (Json.str "filewriter_status_master") ∧
      (Master_statistics service_id jobs).find "service_id" =
        some (Json.str service_id) ∧
      (Master_statistics service_id jobs).find "files" =
        some (Json.obj (jobs.map (fun j => (j.job_id, j.stats)))) := by
  unfold Master_statistics
  dsimp only
  rw [files_foldl_map jobs [] (fun j _ => rfl) hnodup]
  simp [Json.find, findField, objSet]

/-- Witness for the status message shape with two concrete jobs. -/
theorem master_status_message_witness :
    (Master_statistics "svc" [⟨"j1", Json.null⟩, ⟨"j2", Json.int 3⟩]).find "files" =
      some (Json.obj [("j1", Json.null), ("j2", Json.int 3)]) :=
  (master_status_message "svc" [⟨"j1", Json.null⟩, ⟨"j2", Json.int 3⟩]
    (List.Pairwise.cons
      (fun b hb => by
        rcases List.mem_singleton.mp hb with rfl
        decide)
      (List.Pairwise.cons (fun b hb => absurd hb (List.not_mem_nil b))
        List.Pairwise.nil))).2.2

end KafkaToNexus
